import Mathlib

/-!
Verification of the DaemonVigil per-user heartbeat scheduling and per-user
storage subsystem (src/src/scheduler.py, src/src/storage.py, src/src/config.py).

Python dicts are embedded as association lists over `String` keys; the
representation invariant of a Python dict (unique keys) is taken as a
hypothesis where a theorem needs it.  Fallible Python code is embedded in
`Except`.  Timestamps are opaque strings produced by the caller.
-/

namespace DaemonVigil

/-- JSON-representable values stored in the per-user JSON records. -/
inductive JVal where
  | str (s : String)
  | bool (b : Bool)
  | int (n : Int)
  deriving Repr, DecidableEq

/-- Python `d[k]` / `d.get(k)`: first binding of `k` in the dict.
(In a real dict keys are unique, so first = only.) -/
def dictGet {α : Type} : List (String × α) → String → Option α
  | [], _ => none
  | p :: rest, k => if p.1 == k then some p.2 else dictGet rest k

/-- Python `k in d`. -/
def dictHasKey {α : Type} (d : List (String × α)) (k : String) : Bool :=
  (dictGet d k).isSome

/-- Python `d[k] = v`: replace the binding in place if present, else append. -/
def dictSet {α : Type} : List (String × α) → String → α → List (String × α)
  | [], k, v => [(k, v)]
  | p :: rest, k, v => if p.1 == k then (k, v) :: rest else p :: dictSet rest k v

/-- Python `d.pop(k, None)`: drop the binding of `k` if present. -/
def dictPop {α : Type} : List (String × α) → String → List (String × α)
  | [], _ => []
  | p :: rest, k => if p.1 == k then rest else p :: dictPop rest k

/-! ## Message log (src/src/storage.py, MessageStorage) -/

/-- One entry of the conversation log (the record shape built by
`MessageStorage.add_message`). -/
structure Message where
  timestamp : String
  role : String
  content : String
  deriving Repr, DecidableEq

/-- Embeds `MessageStorage.add_message`: read the log, append the new entry,
write back. -/
def add_message (msgs : List Message) (m : Message) : List Message :=
  msgs ++ [m]

/-- Embeds `MessageStorage.get_recent_messages(limit=None)`.  The Python guard
is `if limit:`, which is falsy both for `None` and for `0`, so a limit of `0`
falls through to returning all messages; a positive limit slices
`messages[-limit:]`. -/
def get_recent_messages (msgs : List Message) (limit : Option Nat) : List Message :=
  match limit with
  | some l => if l ≠ 0 then msgs.drop (msgs.length - l) else msgs
  | none => msgs

/-! ## Per-user configuration record (src/src/storage.py, UserConfigStorage) -/

/-- Field names of the `UserConfig` dataclass (storage.py lines 116-124). -/
def configFieldNames : List String :=
  ["user_id", "model", "heartbeat_enabled", "heartbeat_interval_minutes",
   "max_context_messages", "created_at", "updated_at"]

/-- The `UserConfig` dataclass.  Python dataclasses do not check field values
at runtime, so every field holds an arbitrary `JVal`. -/
structure UserConfig where
  user_id : JVal
  model : JVal
  heartbeat_enabled : JVal
  heartbeat_interval_minutes : JVal
  max_context_messages : JVal
  created_at : JVal
  updated_at : JVal
  deriving Repr, DecidableEq

/-- Embeds `UserConfigStorage.get_config`, i.e. `UserConfig(**data)`:
a key of `data` outside the dataclass's field set raises `TypeError`
(unexpected keyword argument); a missing `user_id` raises `TypeError`
(it is the only field without a default); any other missing field falls
back to its dataclass default (storage.py lines 118-124). -/
def get_config (data : List (String × JVal)) : Except String UserConfig :=
  if data.all (fun kv => configFieldNames.contains kv.1) then
    match dictGet data "user_id" with
    | some uid =>
        Except.ok
          { user_id := uid
            model := (dictGet data "model").getD (JVal.str "claude-opus-4-5-20251101")
            heartbeat_enabled := (dictGet data "heartbeat_enabled").getD (JVal.bool true)
            heartbeat_interval_minutes :=
              (dictGet data "heartbeat_interval_minutes").getD (JVal.int 15)
            max_context_messages := (dictGet data "max_context_messages").getD (JVal.int 50)
            created_at := (dictGet data "created_at").getD (JVal.str "")
            updated_at := (dictGet data "updated_at").getD (JVal.str "") }
    | none => Except.error "missing required argument user_id"
  else Except.error "unexpected keyword argument"

/-- Embeds `config.HEARTBEAT_INTERVAL_MINUTES` (config.py line 37): the value
of key `heartbeat_interval_minutes` in config.yaml, defaulting to 15.  The
yaml content is runtime input, so it is a parameter here. -/
def HEARTBEAT_INTERVAL_MINUTES (yamlValue : Option Int) : Int :=
  yamlValue.getD 15

/-- Embeds `UserConfigStorage._get_empty_structure` (storage.py lines 210-221):
the default record written on first access.  `model` (`config.get_claude_model()`,
absent from src/src/config.py) and the two global config values are parameters;
`heartbeat_enabled` is the literal `True`. -/
def get_empty_structure (uid model : String) (hbInterval maxContext : Int)
    (now : String) : List (String × JVal) :=
  [("user_id", JVal.str uid),
   ("model", JVal.str model),
   ("heartbeat_enabled", JVal.bool true),
   ("heartbeat_interval_minutes", JVal.int hbInterval),
   ("max_context_messages", JVal.int maxContext),
   ("created_at", JVal.str now),
   ("updated_at", JVal.str now)]

/-- The kwargs loop of `UserConfigStorage.update_config` (storage.py lines
233-235): each given key is written only if it is already a key of the record
and is neither `user_id` nor `created_at`. -/
def apply_kwargs : List (String × JVal) → List (String × JVal) → List (String × JVal)
  | data, [] => data
  | data, kv :: rest =>
    apply_kwargs
      (if dictHasKey data kv.1 && !(kv.1 == "user_id" || kv.1 == "created_at")
        then dictSet data kv.1 kv.2 else data) rest

/-- Embeds `UserConfigStorage.update_config` (storage.py lines 228-241):
apply the kwargs, then unconditionally stamp `updated_at`, then write. -/
def update_config (data kwargs : List (String × JVal)) (now : String) :
    List (String × JVal) :=
  dictSet (apply_kwargs data kwargs) "updated_at" (JVal.str now)

/-- Whether a persisted config record carries a positive integer
`heartbeat_interval_minutes` (the invariant claimed by the spec). -/
def interval_positive (d : List (String × JVal)) : Bool :=
  match dictGet d "heartbeat_interval_minutes" with
  | some (JVal.int v) => decide (0 < v)
  | _ => false

/-- The per-user config loading done by `MultiUserHeartbeatScheduler.start`
(scheduler.py lines 155-167): `get_config()` is called for each active user
with no exception handler around it, so a failure propagates out of `start`. -/
def start_load_configs : List (List (String × JVal)) → Except String (List UserConfig)
  | [] => Except.ok []
  | d :: rest =>
    match get_config d with
    | Except.error e => Except.error e
    | Except.ok c =>
      match start_load_configs rest with
      | Except.error e => Except.error e
      | Except.ok cs => Except.ok (c :: cs)

/-- A persisted config record carrying one unexpected extra key. -/
def malformedConfigData : List (String × JVal) :=
  ("legacy_flag", JVal.bool true) :: get_empty_structure "u" "m" 15 50 "t0"

/-! ## User registry (src/src/storage.py, UserRegistry) -/

/-- The `User` dataclass (storage.py lines 104-112). -/
structure User where
  user_id : String
  telegram_username : Option String
  telegram_first_name : String
  registered_at : String
  last_seen : String
  status : String
  deriving Repr, DecidableEq

/-- Embeds `UserRegistry.update_last_seen` (storage.py lines 173-181): scan
`data["users"]` in order; the first record matching `user_id` gets
`last_seen := now` and the file is written back; if none matches, a warning
is logged (boolean result `true`) and nothing is written.  The function
always returns normally. -/
def update_last_seen : List User → String → String → List User × Bool
  | [], _, _ => ([], true)
  | u :: rest, uid, now =>
    if u.user_id == uid then ({ u with last_seen := now } :: rest, false)
    else
      let r := update_last_seen rest uid now
      (u :: r.1, r.2)

/-- A concrete registry record used as a test input. -/
def sampleUser : User :=
  { user_id := "42", telegram_username := none, telegram_first_name := "A",
    registered_at := "t0", last_seen := "t0", status := "active" }

/-! ## Scheduler (src/src/scheduler.py, MultiUserHeartbeatScheduler) -/

/-- The trigger flags passed to the timer engine. -/
structure JobSettings where
  coalesce : Bool
  max_instances : Nat
  deriving Repr, DecidableEq

/-- One registered recurring job, as the timer engine tracks it. -/
structure Job where
  user_id : String
  interval_minutes : Int
  settings : JobSettings
  next_run_time : Option Nat
  deriving Repr, DecidableEq

/-- The scheduler's mutable state: the in-memory per-user enabled map
(`self.user_states`) and the engine's job table keyed by job id. -/
structure SchedulerState where
  user_states : List (String × Bool)
  jobs : List (String × Job)
  deriving Repr, DecidableEq

/-- The job id `"heartbeat_" + user_id` used throughout scheduler.py. -/
def job_id (u : String) : String := "heartbeat_" ++ u

/-- The trigger settings `add_user` passes to the engine
(scheduler.py lines 91-93): `replace_existing=True`, `max_instances=1`,
`coalesce=True`. -/
def add_user_job_settings : JobSettings := { coalesce := true, max_instances := 1 }

/-- Embeds `MultiUserHeartbeatScheduler.add_user` (scheduler.py lines 70-102):
register (replacing any existing) the recurring job with `coalesce=True` and
`max_instances=1`, then set the user's enabled flag.  The engine-assigned
next run time is a parameter. -/
def add_user (s : SchedulerState) (u : String) (interval : Int) (enabled : Bool)
    (nrt : Option Nat) : SchedulerState :=
  { jobs := dictSet s.jobs (job_id u)
      { user_id := u, interval_minutes := interval,
        settings := add_user_job_settings, next_run_time := nrt },
    user_states := dictSet s.user_states u enabled }

/-- Embeds `MultiUserHeartbeatScheduler.remove_user` (scheduler.py lines
109-117): remove the job if it exists, then pop the enabled flag. -/
def remove_user (s : SchedulerState) (u : String) : SchedulerState :=
  { jobs := if dictHasKey s.jobs (job_id u) then dictPop s.jobs (job_id u) else s.jobs,
    user_states := dictPop s.user_states u }

/-- Embeds `MultiUserHeartbeatScheduler.pause_user` (scheduler.py lines
119-123): set the enabled flag to `False`; the job table is untouched. -/
def pause_user (s : SchedulerState) (u : String) : SchedulerState :=
  { s with user_states := dictSet s.user_states u false }

/-- Embeds `MultiUserHeartbeatScheduler.resume_user` (scheduler.py lines
125-129): set the enabled flag to `True`; the job table is untouched. -/
def resume_user (s : SchedulerState) (u : String) : SchedulerState :=
  { s with user_states := dictSet s.user_states u true }

/-- Embeds `MultiUserHeartbeatScheduler.is_enabled` (scheduler.py lines
131-134): `self.user_states.get(user_id, True)`. -/
def is_enabled (s : SchedulerState) (u : String) : Bool :=
  (dictGet s.user_states u).getD true

/-- The dict returned by `get_user_status`. -/
structure UserStatus where
  enabled : Bool
  next_run : Option Nat
  job_exists : Bool
  deriving Repr, DecidableEq

/-- Embeds `MultiUserHeartbeatScheduler.get_user_status` (scheduler.py lines
136-145). -/
def get_user_status (s : SchedulerState) (u : String) : UserStatus :=
  let job := dictGet s.jobs (job_id u)
  { enabled := is_enabled s u,
    next_run := job.bind (fun j => j.next_run_time),
    job_exists := job.isSome }

/-- Outcome of one tick of `heartbeat_job`, as logged. -/
inductive TickOutcome where
  | skipped
  | completed
  | errorLogged (e : String)
  deriving Repr, DecidableEq

/-- The body of the `try:` block of `heartbeat_job` (scheduler.py lines
42-65): check the enabled flag; load the user's storage handle and config
(both fallible, folded into `loadConfig`); invoke the Executor
(`claude.process_heartbeat`, fallible). -/
def heartbeat_body (s : SchedulerState) (u : String)
    (loadConfig : Except String UserConfig)
    (processHeartbeat : UserConfig → Except String Unit) : Except String TickOutcome :=
  if !(is_enabled s u) then Except.ok TickOutcome.skipped
  else
    match loadConfig with
    | Except.error e => Except.error e
    | Except.ok cfg =>
      match processHeartbeat cfg with
      | Except.error e => Except.error e
      | Except.ok _ => Except.ok TickOutcome.completed

/-- Embeds `MultiUserHeartbeatScheduler.heartbeat_job` (scheduler.py lines
35-68): the whole body sits in `try: ... except Exception as e: logger.error(...)`,
so every exception is caught and logged and the coroutine returns normally;
the scheduler state is only read, never written. -/
def heartbeat_job (s : SchedulerState) (u : String)
    (loadConfig : Except String UserConfig)
    (processHeartbeat : UserConfig → Except String Unit) : SchedulerState × TickOutcome :=
  match heartbeat_body s u loadConfig processHeartbeat with
  | Except.ok o => (s, o)
  | Except.error e => (s, TickOutcome.errorLogged e)

/-! ## Dispatch model for one coalesced job

Modelled from the spec: the timer engine (APScheduler, an external dependency,
not part of src/) dispatching one user's recurring job armed with the flags
`add_user` passes (`max_instances=1`, `coalesce=True`).  Occurrence `k` is
nominally due at time `k * interval`; if the previous execution is still
running at that moment the occurrence is dropped, otherwise it starts exactly
on time and runs for its duration. -/

/-- One dispatch event: occurrence `idx` either ran over `[startT, endT)` or
was dropped. -/
inductive FireEvent where
  | fired (idx startT endT : Nat)
  | dropped (idx : Nat)
  deriving Repr, DecidableEq

/-- Dispatch loop for a coalesced single-instance job: `k` is the next
occurrence index, `busyUntil` the finish time of the latest execution,
and the list holds the would-be durations of the remaining occurrences. -/
def dispatchFrom (interval : Nat) : Nat → Nat → List Nat → List FireEvent
  | _, _, [] => []
  | k, busyUntil, d :: rest =>
    if busyUntil ≤ k * interval then
      FireEvent.fired k (k * interval) (k * interval + d)
        :: dispatchFrom interval (k + 1) (k * interval + d) rest
    else
      FireEvent.dropped k :: dispatchFrom interval (k + 1) busyUntil rest

/-- Full dispatch of a job from registration: occurrences 1, 2, ... at
nominal times `interval`, `2 * interval`, ... -/
def coalesced_dispatch (interval : Nat) (durations : List Nat) : List FireEvent :=
  dispatchFrom interval 1 0 durations

/-- The executions that actually ran, as (index, start, finish) triples. -/
def firedEvents : List FireEvent → List (Nat × Nat × Nat)
  | [] => []
  | FireEvent.fired k s e :: rest => (k, s, e) :: firedEvents rest
  | FireEvent.dropped _ :: rest => firedEvents rest

/-! ## Dictionary lemmas -/

theorem dictGet_dictSet_self {α : Type} (d : List (String × α)) (k : String) (v : α) :
    dictGet (dictSet d k v) k = some v := by
  induction d with
  | nil => simp [dictSet, dictGet]
  | cons p rest ih =>
    by_cases h : p.1 == k
    · simp [dictSet, dictGet, h]
    · simp [dictSet, dictGet, h, ih]

theorem dictGet_dictSet_ne {α : Type} (d : List (String × α)) (k k' : String) (v : α)
    (h : k' ≠ k) :
    dictGet (dictSet d k v) k' = dictGet d k' := by
  have hne : ¬ k = k' := fun he => h he.symm
  induction d with
  | nil => simp [dictSet, dictGet, hne]
  | cons p rest ih =>
    by_cases hp : p.1 == k
    · have hpk : p.1 = k := by simpa using hp
      simp [dictSet, hp, dictGet, hpk, hne]
    · simp [dictSet, hp, dictGet, ih]

theorem dictHasKey_dictSet {α : Type} (d : List (String × α)) (k k' : String) (v : α) :
    dictHasKey (dictSet d k v) k' = (k' == k || dictHasKey d k') := by
  by_cases h : k' = k
  · subst h
    simp [dictHasKey, dictGet_dictSet_self]
  · simp [dictHasKey, dictGet_dictSet_ne d k k' v h, h]

theorem dictGet_eq_none_of_not_mem {α : Type} (m : List (String × α)) (k : String)
    (h : k ∉ m.map Prod.fst) : dictGet m k = none := by
  induction m with
  | nil => rfl
  | cons p rest ih =>
    simp only [List.map_cons, List.mem_cons, not_or] at h
    have hp : (p.1 == k) = false := by
      simp only [beq_eq_false_iff_ne, ne_eq]
      exact fun he => h.1 he.symm
    simp [dictGet, hp, ih h.2]

/-! ## C3: message log -/

/-- C3 counterexample: the claim quantifies over every natural number `k`, but
`get_recent_messages(0)` returns the whole log (the Python guard `if limit:` is
falsy at 0), not the last 0 entries (the empty list). -/
theorem C3_counterexample :
    get_recent_messages [{ timestamp := "t0", role := "user", content := "hi" }] (some 0)
      = [{ timestamp := "t0", role := "user", content := "hi" }] ∧
    get_recent_messages [{ timestamp := "t0", role := "user", content := "hi" }] (some 0)
      ≠ ([] : List Message) := by
  exact ⟨rfl, by decide⟩

/-- C3 amended: for every positive `k`, `get_recent_messages (some k)` is a
suffix of the log of length `min k (length of the log)` — exactly the last `k`
entries in original order, or all of them when the log is shorter; with no
limit (and, by the amendment, also with limit 0) all entries are returned;
`add_message` appends at the end, preserving existing order. -/
theorem C3_last_k (msgs : List Message) (m : Message) (k : Nat) (hk : 0 < k) :
    (∃ pre, msgs = pre ++ get_recent_messages msgs (some k)) ∧
    (get_recent_messages msgs (some k)).length = min k msgs.length ∧
    get_recent_messages msgs none = msgs ∧
    get_recent_messages msgs (some 0) = msgs ∧
    add_message msgs m = msgs ++ [m] := by
  have hk0 : k ≠ 0 := Nat.pos_iff_ne_zero.mp hk
  refine ⟨⟨msgs.take (msgs.length - k), ?_⟩, ?_, rfl, rfl, rfl⟩
  · simp [get_recent_messages, hk0]
  · simp only [get_recent_messages, ne_eq, hk0, not_false_iff, if_true,
      List.length_drop]
    omega

/-- C3 witness: the amended statement evaluated on a two-entry log with k = 1. -/
theorem C3_witness :
    (∃ pre, [({ timestamp := "t0", role := "user", content := "a" } : Message),
        { timestamp := "t1", role := "assistant", content := "b" }]
      = pre ++ get_recent_messages
        [{ timestamp := "t0", role := "user", content := "a" },
         { timestamp := "t1", role := "assistant", content := "b" }] (some 1)) ∧
    (get_recent_messages
        [({ timestamp := "t0", role := "user", content := "a" } : Message),
         { timestamp := "t1", role := "assistant", content := "b" }] (some 1)).length
      = min 1 ([({ timestamp := "t0", role := "user", content := "a" } : Message),
         { timestamp := "t1", role := "assistant", content := "b" }]).length ∧
    get_recent_messages
        [({ timestamp := "t0", role := "user", content := "a" } : Message),
         { timestamp := "t1", role := "assistant", content := "b" }] none
      = [{ timestamp := "t0", role := "user", content := "a" },
         { timestamp := "t1", role := "assistant", content := "b" }] ∧
    get_recent_messages
        [({ timestamp := "t0", role := "user", content := "a" } : Message),
         { timestamp := "t1", role := "assistant", content := "b" }] (some 0)
      = [{ timestamp := "t0", role := "user", content := "a" },
         { timestamp := "t1", role := "assistant", content := "b" }] ∧
    add_message
        [({ timestamp := "t0", role := "user", content := "a" } : Message),
         { timestamp := "t1", role := "assistant", content := "b" }]
        { timestamp := "t2", role := "user", content := "c" }
      = [{ timestamp := "t0", role := "user", content := "a" },
         { timestamp := "t1", role := "assistant", content := "b" },
         { timestamp := "t2", role := "user", content := "c" }] :=
  C3_last_k
    [{ timestamp := "t0", role := "user", content := "a" },
     { timestamp := "t1", role := "assistant", content := "b" }]
    { timestamp := "t2", role := "user", content := "c" } 1 (by decide)

/-! ## C4, C5: update_config -/

theorem apply_kwargs_frame (kwargs : List (String × JVal)) :
    ∀ (data : List (String × JVal)) (k : String),
      (∀ kv ∈ kwargs, kv.1 ≠ k) →
      dictGet (apply_kwargs data kwargs) k = dictGet data k := by
  induction kwargs with
  | nil => intro data k _; rfl
  | cons kv rest ih =>
    intro data k h
    have hk : kv.1 ≠ k := h kv (List.mem_cons_self kv rest)
    have hrest : ∀ kv' ∈ rest, kv'.1 ≠ k :=
      fun kv' hm => h kv' (List.mem_cons_of_mem _ hm)
    show dictGet (apply_kwargs _ rest) k = _
    rw [ih _ k hrest]
    split
    · exact dictGet_dictSet_ne data kv.1 k kv.2 (fun he => hk he.symm)
    · rfl

theorem apply_kwargs_protected (kwargs : List (String × JVal)) :
    ∀ (data : List (String × JVal)) (k : String),
      (k = "user_id" ∨ k = "created_at") →
      dictGet (apply_kwargs data kwargs) k = dictGet data k := by
  induction kwargs with
  | nil => intro data k _; rfl
  | cons kv rest ih =>
    intro data k hk
    show dictGet (apply_kwargs _ rest) k = _
    rw [ih _ k hk]
    by_cases hkv : kv.1 = k
    · subst hkv
      rcases hk with h | h <;> simp [h]
    · split
      · exact dictGet_dictSet_ne data kv.1 k kv.2 (fun he => hkv he.symm)
      · rfl

theorem apply_kwargs_append (xs ys : List (String × JVal)) :
    ∀ data, apply_kwargs data (xs ++ ys) = apply_kwargs (apply_kwargs data xs) ys := by
  induction xs with
  | nil => intro data; rfl
  | cons kv rest ih =>
    intro data
    simp only [List.cons_append]
    show apply_kwargs _ (rest ++ ys) = _
    exact ih _

theorem apply_kwargs_sets (rest : List (String × JVal)) (data : List (String × JVal))
    (k : String) (v : JVal)
    (hk1 : k ≠ "user_id") (hk2 : k ≠ "created_at") (hd : dictHasKey data k = true)
    (hrest : ∀ kv ∈ rest, kv.1 ≠ k) :
    dictGet (apply_kwargs data ((k, v) :: rest)) k = some v := by
  show dictGet (apply_kwargs _ rest) k = some v
  rw [apply_kwargs_frame rest _ k hrest]
  simp [hd, hk1, hk2, dictGet_dictSet_self]

/-- C4: update_config writes exactly the supplied fields.  For a supplied
field `k` of the record other than `user_id`/`created_at` (appearing once in
the kwargs, as Python keyword arguments are unique), the result holds the new
value; `user_id` and `created_at` keep their old value even if supplied;
`updated_at` is stamped with `now`; every field not supplied (and distinct
from `updated_at`) keeps its previous value. -/
theorem C4_update_config_frame (data pre post : List (String × JVal)) (k : String)
    (v : JVal) (now : String)
    (hk1 : k ≠ "user_id") (hk2 : k ≠ "created_at") (hk3 : k ≠ "updated_at")
    (hd : dictHasKey data k = true)
    (hpre : ∀ kv ∈ pre, kv.1 ≠ k) (hpost : ∀ kv ∈ post, kv.1 ≠ k) :
    dictGet (update_config data (pre ++ (k, v) :: post) now) k = some v ∧
    dictGet (update_config data (pre ++ (k, v) :: post) now) "user_id"
      = dictGet data "user_id" ∧
    dictGet (update_config data (pre ++ (k, v) :: post) now) "created_at"
      = dictGet data "created_at" ∧
    dictGet (update_config data (pre ++ (k, v) :: post) now) "updated_at"
      = some (JVal.str now) ∧
    ∀ k2, k2 ≠ "updated_at" → (∀ kv ∈ pre ++ (k, v) :: post, kv.1 ≠ k2) →
      dictGet (update_config data (pre ++ (k, v) :: post) now) k2 = dictGet data k2 := by
  refine ⟨?_, ?_, ?_, ?_, ?_⟩
  · rw [update_config, dictGet_dictSet_ne _ _ _ _ hk3, apply_kwargs_append]
    have hd2 : dictHasKey (apply_kwargs data pre) k = true := by
      unfold dictHasKey
      rw [apply_kwargs_frame pre data k hpre]
      exact hd
    exact apply_kwargs_sets post (apply_kwargs data pre) k v hk1 hk2 hd2 hpost
  · rw [update_config, dictGet_dictSet_ne _ _ _ _ (by decide)]
    exact apply_kwargs_protected _ data "user_id" (Or.inl rfl)
  · rw [update_config, dictGet_dictSet_ne _ _ _ _ (by decide)]
    exact apply_kwargs_protected _ data "created_at" (Or.inr rfl)
  · rw [update_config]
    exact dictGet_dictSet_self _ _ _
  · intro k2 h2 hnk
    rw [update_config, dictGet_dictSet_ne _ _ _ _ h2]
    exact apply_kwargs_frame _ data k2 hnk

/-- C4 witness: on a freshly created default record, `update_config(model="Y")`
sets `model` to "Y", stamps `updated_at`, and leaves `user_id`, `created_at`
and every other field untouched. -/
theorem C4_witness :
    dictGet (update_config (get_empty_structure "u" "m" 15 50 "t0")
        ([] ++ ("model", JVal.str "Y") :: []) "t1") "model" = some (JVal.str "Y") ∧
    dictGet (update_config (get_empty_structure "u" "m" 15 50 "t0")
        ([] ++ ("model", JVal.str "Y") :: []) "t1") "user_id"
      = dictGet (get_empty_structure "u" "m" 15 50 "t0") "user_id" ∧
    dictGet (update_config (get_empty_structure "u" "m" 15 50 "t0")
        ([] ++ ("model", JVal.str "Y") :: []) "t1") "created_at"
      = dictGet (get_empty_structure "u" "m" 15 50 "t0") "created_at" ∧
    dictGet (update_config (get_empty_structure "u" "m" 15 50 "t0")
        ([] ++ ("model", JVal.str "Y") :: []) "t1") "updated_at"
      = some (JVal.str "t1") ∧
    ∀ k2, k2 ≠ "updated_at" →
      (∀ kv ∈ [] ++ ("model", JVal.str "Y") :: ([] : List (String × JVal)), kv.1 ≠ k2) →
      dictGet (update_config (get_empty_structure "u" "m" 15 50 "t0")
        ([] ++ ("model", JVal.str "Y") :: []) "t1") k2
        = dictGet (get_empty_structure "u" "m" 15 50 "t0") k2 :=
  C4_update_config_frame (get_empty_structure "u" "m" 15 50 "t0") [] [] "model"
    (JVal.str "Y") "t1" (by decide) (by decide) (by decide) (by decide)
    (by simp) (by simp)

/-- C5 counterexample: `update_config` performs no validation, so a single
call starting from a default record (positive interval 15) persists
`heartbeat_interval_minutes = 0`, breaking the claimed invariant. -/
theorem C5_counterexample :
    interval_positive (get_empty_structure "u" "m" 15 50 "t0") = true ∧
    interval_positive (update_config (get_empty_structure "u" "m" 15 50 "t0")
      [("heartbeat_interval_minutes", JVal.int 0)] "t1") = false := by
  exact ⟨rfl, rfl⟩

theorem apply_kwargs_interval_positive (kwargs : List (String × JVal)) :
    (∀ kv ∈ kwargs, kv.1 = "heartbeat_interval_minutes" →
      ∃ v : Int, kv.2 = JVal.int v ∧ 0 < v) →
    ∀ data : List (String × JVal), interval_positive data = true →
      interval_positive (apply_kwargs data kwargs) = true := by
  induction kwargs with
  | nil => intro _ data h; exact h
  | cons kv rest ih =>
    intro hk data h
    show interval_positive (apply_kwargs _ rest) = true
    apply ih (fun kv' hm => hk kv' (List.mem_cons_of_mem _ hm))
    split
    · by_cases hkey : kv.1 = "heartbeat_interval_minutes"
      · obtain ⟨v, hv, hvpos⟩ := hk kv (List.mem_cons_self kv rest) hkey
        rw [interval_positive, hkey, dictGet_dictSet_self, hv]
        simpa using hvpos
      · rw [interval_positive,
          dictGet_dictSet_ne data kv.1 _ kv.2 (fun he => hkey he.symm)]
        exact h
    · exact h

/-- C5 amended: the default record created on first access has a positive
interval provided the globally configured interval is positive (which holds
for the built-in default of 15 when config.yaml does not override it), and
`update_config` preserves positivity only for calls whose supplied
`heartbeat_interval_minutes` values (if any) are positive integers — the
store itself never validates. -/
theorem C5_interval_positive (uid model now now2 : String) (maxContext : Int)
    (yamlValue : Option Int) (hy : ∀ v ∈ yamlValue, (0 : Int) < v)
    (kwargs : List (String × JVal))
    (hk : ∀ kv ∈ kwargs, kv.1 = "heartbeat_interval_minutes" →
      ∃ v : Int, kv.2 = JVal.int v ∧ 0 < v) :
    interval_positive (get_empty_structure uid model
      (HEARTBEAT_INTERVAL_MINUTES yamlValue) maxContext now) = true ∧
    ∀ data : List (String × JVal), interval_positive data = true →
      interval_positive (update_config data kwargs now2) = true := by
  constructor
  · show decide (0 < HEARTBEAT_INTERVAL_MINUTES yamlValue) = true
    cases yamlValue with
    | none => decide
    | some v => simpa [HEARTBEAT_INTERVAL_MINUTES] using hy v rfl
  · intro data h
    rw [update_config, interval_positive, dictGet_dictSet_ne _ _ _ _ (by decide)]
    have := apply_kwargs_interval_positive kwargs hk data h
    rw [interval_positive] at this
    exact this

/-- C5 witness: the amended statement evaluated with no yaml override and a
single update setting the interval to 30. -/
theorem C5_witness :
    interval_positive (get_empty_structure "u" "m"
      (HEARTBEAT_INTERVAL_MINUTES none) 50 "t0") = true ∧
    ∀ data : List (String × JVal), interval_positive data = true →
      interval_positive (update_config data
        [("heartbeat_interval_minutes", JVal.int 30)] "t1") = true :=
  C5_interval_positive "u" "m" "t0" "t1" 50 none (by simp)
    [("heartbeat_interval_minutes", JVal.int 30)]
    (by
      intro kv hm _
      simp only [List.mem_singleton] at hm
      subst hm
      exact ⟨30, rfl, by decide⟩)

/-! ## C6: malformed persisted config -/

/-- C6 counterexample: a persisted record carrying one unexpected extra key
makes `get_config` fail (Python `UserConfig(**data)` raises `TypeError`)
instead of falling back to defaults, and `Scheduler.start`, which calls
`get_config` with no handler, propagates that failure. -/
theorem C6_counterexample :
    get_config malformedConfigData = Except.error "unexpected keyword argument" ∧
    start_load_configs [malformedConfigData]
      = Except.error "unexpected keyword argument" := by
  exact ⟨rfl, rfl⟩

/-- C6 amended: the local fallback exists only for missing fields — a record
whose keys all belong to the dataclass's field set and which carries a
`user_id` loads successfully, absent fields taking their dataclass defaults
(and a missing file is recreated whole by `_ensure_file_exists`); but a record
with an unexpected key, or without `user_id`, makes `get_config` raise, and
the error surfaces through `Scheduler.start`'s config loading. -/
theorem C6_get_config_defaults (data : List (String × JVal)) (uid : JVal)
    (hkeys : data.all (fun kv => configFieldNames.contains kv.1) = true)
    (huid : dictGet data "user_id" = some uid) :
    get_config data = Except.ok
      { user_id := uid
        model := (dictGet data "model").getD (JVal.str "claude-opus-4-5-20251101")
        heartbeat_enabled := (dictGet data "heartbeat_enabled").getD (JVal.bool true)
        heartbeat_interval_minutes :=
          (dictGet data "heartbeat_interval_minutes").getD (JVal.int 15)
        max_context_messages := (dictGet data "max_context_messages").getD (JVal.int 50)
        created_at := (dictGet data "created_at").getD (JVal.str "")
        updated_at := (dictGet data "updated_at").getD (JVal.str "") } ∧
    start_load_configs [data] = Except.ok
      [{ user_id := uid
         model := (dictGet data "model").getD (JVal.str "claude-opus-4-5-20251101")
         heartbeat_enabled := (dictGet data "heartbeat_enabled").getD (JVal.bool true)
         heartbeat_interval_minutes :=
           (dictGet data "heartbeat_interval_minutes").getD (JVal.int 15)
         max_context_messages := (dictGet data "max_context_messages").getD (JVal.int 50)
         created_at := (dictGet data "created_at").getD (JVal.str "")
         updated_at := (dictGet data "updated_at").getD (JVal.str "") }] := by
  have hg : get_config data = Except.ok
      { user_id := uid
        model := (dictGet data "model").getD (JVal.str "claude-opus-4-5-20251101")
        heartbeat_enabled := (dictGet data "heartbeat_enabled").getD (JVal.bool true)
        heartbeat_interval_minutes :=
          (dictGet data "heartbeat_interval_minutes").getD (JVal.int 15)
        max_context_messages := (dictGet data "max_context_messages").getD (JVal.int 50)
        created_at := (dictGet data "created_at").getD (JVal.str "")
        updated_at := (dictGet data "updated_at").getD (JVal.str "") } := by
    rw [get_config, if_pos hkeys, huid]
  exact ⟨hg, by rw [start_load_configs, hg]; rfl⟩

/-- C6 witness: a record holding only `user_id` loads as the all-defaults
config, through `get_config` and through the start-time loading loop. -/
theorem C6_witness :
    get_config [("user_id", JVal.str "u")] = Except.ok
      { user_id := JVal.str "u"
        model := (dictGet [("user_id", JVal.str "u")] "model").getD
          (JVal.str "claude-opus-4-5-20251101")
        heartbeat_enabled := (dictGet [("user_id", JVal.str "u")] "heartbeat_enabled").getD
          (JVal.bool true)
        heartbeat_interval_minutes :=
          (dictGet [("user_id", JVal.str "u")] "heartbeat_interval_minutes").getD
            (JVal.int 15)
        max_context_messages :=
          (dictGet [("user_id", JVal.str "u")] "max_context_messages").getD (JVal.int 50)
        created_at := (dictGet [("user_id", JVal.str "u")] "created_at").getD (JVal.str "")
        updated_at := (dictGet [("user_id", JVal.str "u")] "updated_at").getD
          (JVal.str "") } ∧
    start_load_configs [[("user_id", JVal.str "u")]] = Except.ok
      [{ user_id := JVal.str "u"
         model := (dictGet [("user_id", JVal.str "u")] "model").getD
           (JVal.str "claude-opus-4-5-20251101")
         heartbeat_enabled := (dictGet [("user_id", JVal.str "u")] "heartbeat_enabled").getD
           (JVal.bool true)
         heartbeat_interval_minutes :=
           (dictGet [("user_id", JVal.str "u")] "heartbeat_interval_minutes").getD
             (JVal.int 15)
         max_context_messages :=
           (dictGet [("user_id", JVal.str "u")] "max_context_messages").getD (JVal.int 50)
         created_at := (dictGet [("user_id", JVal.str "u")] "created_at").getD (JVal.str "")
         updated_at := (dictGet [("user_id", JVal.str "u")] "updated_at").getD
           (JVal.str "") }] :=
  C6_get_config_defaults [("user_id", JVal.str "u")] (JVal.str "u") (by decide) (by decide)

/-! ## C7, C8, C10: enabled flags and timers -/

/-- C7: a user absent from the enabled-state map is reported enabled —
`self.user_states.get(user_id, True)` falls back to `True`. -/
theorem C7_unknown_user_enabled (s : SchedulerState) (u : String)
    (h : dictGet s.user_states u = none) : is_enabled s u = true := by
  simp [is_enabled, h]

/-- C7 witness: the empty scheduler reports any user as enabled. -/
theorem C7_witness :
    is_enabled { user_states := [], jobs := [] } "alice" = true :=
  C7_unknown_user_enabled { user_states := [], jobs := [] } "alice" rfl

/-- C8: pause makes `is_enabled` false and resume makes it true (also right
after a pause), `get_user_status` reflects the flag, and neither operation
touches the job table — so `job_exists` and `next_run` are unchanged. -/
theorem C8_pause_resume (s : SchedulerState) (u : String) :
    is_enabled (pause_user s u) u = false ∧
    is_enabled (resume_user s u) u = true ∧
    is_enabled (resume_user (pause_user s u) u) u = true ∧
    (get_user_status (pause_user s u) u).enabled = false ∧
    (get_user_status (resume_user s u) u).enabled = true ∧
    (pause_user s u).jobs = s.jobs ∧
    (resume_user s u).jobs = s.jobs ∧
    (get_user_status (pause_user s u) u).job_exists = (get_user_status s u).job_exists ∧
    (get_user_status (pause_user s u) u).next_run = (get_user_status s u).next_run ∧
    (get_user_status (resume_user s u) u).job_exists = (get_user_status s u).job_exists ∧
    (get_user_status (resume_user s u) u).next_run = (get_user_status s u).next_run := by
  refine ⟨?_, ?_, ?_, ?_, ?_, rfl, rfl, rfl, rfl, rfl, rfl⟩ <;>
    simp [is_enabled, pause_user, resume_user, get_user_status, dictGet_dictSet_self]

theorem dictGet_dictPop_dictSet_self {α : Type} (u : String) (b : α) :
    ∀ m : List (String × α), (m.map Prod.fst).Nodup →
      dictGet (dictPop (dictSet m u b) u) u = none := by
  intro m
  induction m with
  | nil =>
    intro _
    simp [dictSet, dictPop, dictGet]
  | cons p rest ih =>
    intro h
    rw [List.map_cons, List.nodup_cons] at h
    by_cases hp : p.1 == u
    · have hpu : p.1 = u := by simpa using hp
      have hmem : u ∉ rest.map Prod.fst := hpu ▸ h.1
      simp [dictSet, hp, dictPop, dictGet_eq_none_of_not_mem rest u hmem]
    · have hpu : (p.1 == u) = false := by simpa using hp
      simp [dictSet, hpu, dictPop, dictGet, ih h.2]

/-- C10: removing a user discards their paused flag.  `remove_user` pops the
entry from the enabled-state map, and `is_enabled` then falls back to `True`,
so `pause_user(u)` followed by `remove_user(u)` leaves `is_enabled(u) = true`
(the map's keys being unique, as Python dict keys are). -/
theorem C10_remove_forgets_pause (s : SchedulerState) (u : String)
    (h : (s.user_states.map Prod.fst).Nodup) :
    is_enabled (remove_user (pause_user s u) u) u = true := by
  simp [is_enabled, remove_user, pause_user,
    dictGet_dictPop_dictSet_self u false s.user_states h]

/-- C10 witness: a scheduler with one registered, enabled user "u"; pausing
then removing "u" reports it enabled again. -/
theorem C10_witness :
    is_enabled (remove_user (pause_user
      { user_states := [("u", true)],
        jobs := [("heartbeat_u",
          { user_id := "u", interval_minutes := 15,
            settings := add_user_job_settings, next_run_time := some 15 })] } "u") "u")
      "u" = true :=
  C10_remove_forgets_pause
    { user_states := [("u", true)],
      jobs := [("heartbeat_u",
        { user_id := "u", interval_minutes := 15,
          settings := add_user_job_settings, next_run_time := some 15 })] } "u"
    (by simp)

/-! ## C9: update_last_seen -/

theorem update_last_seen_absent (uid now : String) :
    ∀ users : List User, (∀ w ∈ users, w.user_id ≠ uid) →
      update_last_seen users uid now = (users, true) := by
  intro users
  induction users with
  | nil => intro _; rfl
  | cons u rest ih =>
    intro h
    have hu : (u.user_id == uid) = false := by
      simpa using h u (List.mem_cons_self u rest)
    simp [update_last_seen, hu, ih (fun w hw => h w (List.mem_cons_of_mem _ hw))]

theorem update_last_seen_found (uid now : String) (u : User) (post : List User)
    (hu : u.user_id = uid) :
    ∀ pre : List User, (∀ w ∈ pre, w.user_id ≠ uid) →
      update_last_seen (pre ++ u :: post) uid now
        = (pre ++ { u with last_seen := now } :: post, false) := by
  intro pre
  induction pre with
  | nil =>
    intro _
    simp [update_last_seen, hu]
  | cons w rest ih =>
    intro h
    have hw : (w.user_id == uid) = false := by
      simpa using h w (List.mem_cons_self w rest)
    simp [update_last_seen, hw, ih (fun w' hw' => h w' (List.mem_cons_of_mem _ hw'))]

/-- C9: for a user id absent from the registry, `update_last_seen` leaves the
list of users unchanged and takes the warning branch (it is a total function,
so it never raises); for a present id — at its first, and in a well-formed
registry only, occurrence — exactly that record's `last_seen` field is
replaced and every other record, and every other field, is untouched. -/
theorem C9_update_last_seen (users pre post : List User) (u : User)
    (uid now : String) :
    ((∀ w ∈ users, w.user_id ≠ uid) → update_last_seen users uid now = (users, true)) ∧
    (users = pre ++ u :: post → u.user_id = uid → (∀ w ∈ pre, w.user_id ≠ uid) →
      update_last_seen users uid now
        = (pre ++ { u with last_seen := now } :: post, false)) := by
  constructor
  · intro h
    exact update_last_seen_absent uid now users h
  · intro heq hu hpre
    subst heq
    exact update_last_seen_found uid now u post hu pre hpre

/-- C9 witness: a one-user registry; updating an unknown id "7" is a warned
no-op, updating the present id "42" rewrites only that record's `last_seen`. -/
theorem C9_witness :
    update_last_seen [sampleUser] "7" "t1" = ([sampleUser], true) ∧
    update_last_seen [sampleUser] "42" "t1"
      = ([{ sampleUser with last_seen := "t1" }], false) :=
  ⟨(C9_update_last_seen [sampleUser] [] [] sampleUser "7" "t1").1 (by decide),
   (C9_update_last_seen [sampleUser] [] [] sampleUser "42" "t1").2 rfl (by decide)
     (by simp)⟩

/-! ## C2: per-tick error containment -/

/-- C2: `heartbeat_job` never lets an exception escape — its result type is a
normal return carrying the logged outcome — and it returns the scheduler
state unchanged on every path; when the tick is enabled and either the
store/config load or the Executor call fails, the failure is logged and
nothing else happens. -/
theorem C2_tick_containment (s : SchedulerState) (u : String)
    (loadConfig : Except String UserConfig)
    (processHeartbeat : UserConfig → Except String Unit) :
    (heartbeat_job s u loadConfig processHeartbeat).1 = s ∧
    (∀ e, loadConfig = Except.error e → is_enabled s u = true →
      heartbeat_job s u loadConfig processHeartbeat = (s, TickOutcome.errorLogged e)) ∧
    (∀ cfg e, loadConfig = Except.ok cfg → processHeartbeat cfg = Except.error e →
      is_enabled s u = true →
      heartbeat_job s u loadConfig processHeartbeat = (s, TickOutcome.errorLogged e)) := by
  refine ⟨?_, ?_, ?_⟩
  · rw [heartbeat_job]
    cases heartbeat_body s u loadConfig processHeartbeat <;> rfl
  · intro e hl he
    simp [heartbeat_job, heartbeat_body, he, hl]
  · intro cfg e hl hp he
    simp [heartbeat_job, heartbeat_body, he, hl, hp]

/-- C2 witness: a failing config load on an enabled tick for the empty
scheduler is logged and leaves the state unchanged. -/
theorem C2_witness :
    (heartbeat_job { user_states := [], jobs := [] } "u" (Except.error "boom")
      (fun _ => Except.ok ())).1 = { user_states := [], jobs := [] } ∧
    heartbeat_job { user_states := [], jobs := [] } "u" (Except.error "boom")
      (fun _ => Except.ok ())
      = ({ user_states := [], jobs := [] }, TickOutcome.errorLogged "boom") :=
  ⟨(C2_tick_containment { user_states := [], jobs := [] } "u" (Except.error "boom")
      (fun _ => Except.ok ())).1,
   (C2_tick_containment { user_states := [], jobs := [] } "u" (Except.error "boom")
      (fun _ => Except.ok ())).2.1 "boom" rfl rfl⟩

/-! ## C1: coalescing -/

theorem dispatchFrom_fired_spec (interval : Nat) (ds : List Nat) :
    ∀ (k busy : Nat),
      (∀ x ∈ firedEvents (dispatchFrom interval k busy ds),
        busy ≤ x.2.1 ∧ x.2.1 = x.1 * interval) ∧
      (firedEvents (dispatchFrom interval k busy ds)).Pairwise
        (fun a b => a.2.2 ≤ b.2.1) := by
  induction ds with
  | nil =>
    intro k busy
    constructor
    · intro x hx
      simp [dispatchFrom, firedEvents] at hx
    · simp [dispatchFrom, firedEvents]
  | cons d rest ih =>
    intro k busy
    by_cases hb : busy ≤ k * interval
    · simp only [dispatchFrom, if_pos hb, firedEvents]
      obtain ⟨ihmem, ihpw⟩ := ih (k + 1) (k * interval + d)
      constructor
      · intro x hx
        rcases List.mem_cons.mp hx with h | h
        · subst h
          exact ⟨hb, rfl⟩
        · have hx2 := ihmem x h
          exact ⟨le_trans (le_trans hb (Nat.le_add_right _ d)) hx2.1, hx2.2⟩
      · refine List.pairwise_cons.mpr ⟨?_, ihpw⟩
        intro b hb2
        exact (ihmem b hb2).1
    · simp only [dispatchFrom, if_neg hb, firedEvents]
      exact ih (k + 1) busy

/-- C1: `add_user` registers the user's recurring job with `coalesce=True`
and `max_instances=1`; under the modelled dispatch semantics of the timer
engine for exactly those flags, every execution that runs starts precisely at
its own nominal time `k * interval` (a dropped occurrence is never queued and
never shifts a later one), and the executions are pairwise non-overlapping —
at most one is in flight at any time. -/
theorem C1_coalescing (s : SchedulerState) (u : String) (iv : Int) (en : Bool)
    (nrt : Option Nat) (interval : Nat) (durations : List Nat) :
    (∃ j : Job, dictGet (add_user s u iv en nrt).jobs (job_id u) = some j ∧
      j.settings = add_user_job_settings ∧
      add_user_job_settings = { coalesce := true, max_instances := 1 }) ∧
    (∀ x ∈ firedEvents (coalesced_dispatch interval durations),
      x.2.1 = x.1 * interval) ∧
    (firedEvents (coalesced_dispatch interval durations)).Pairwise
      (fun a b => a.2.2 ≤ b.2.1) := by
  refine ⟨⟨_, dictGet_dictSet_self _ _ _, rfl, rfl⟩, ?_, ?_⟩
  · intro x hx
    exact ((dispatchFrom_fired_spec interval durations 1 0).1 x hx).2
  · exact (dispatchFrom_fired_spec interval durations 1 0).2

end DaemonVigil
